import Mathlib

/-!
# Verification of the Signal Sciences graph connector

A shallow embedding of the repository's API client (`src/client.ts`,
class `SignalSciencesAPIClient`) and of the cloud-WAF entity converter,
together with theorems settling the spec's claims about them.

Modelling conventions:
* JavaScript exceptions become the `Except` monad; the thrown error
  classes of the integration SDK become the constructors of `ApiError`.
* The network is an oracle: each call to `fetch` consumes a `FetchWorld`
  holding the `/auth` outcome and the GET response that the network would
  deliver for that call.  Outbound traffic is recorded as a `NetEvent`
  trace so that statements about *which* network calls happen (and with
  which bearer token) can be made.
* A JavaScript value that may be `undefined` is an `Option`.
* The sequential `for ... await` loops of the iterators become
  state-passing left folds of the caller-supplied callback.
-/

namespace SigSci

/-- `https://dashboard.signalsciences.net/api/v0` (client.ts line 19). -/
def BASE_URI : String := "https://dashboard.signalsciences.net/api/v0"

/-- The `/auth` endpoint used by `authenticate()`. -/
def authUrl : String := BASE_URI ++ "/auth"

/-- The `/corps` endpoint used by `verifyAuthentication` and `iterateCorps`. -/
def corpsEndpoint : String := BASE_URI ++ "/corps"

/-- The integration config: the validated credential pair. -/
structure Config where
  email : String
  password : String
deriving DecidableEq, Repr

/-- The URL-encoded form parameters POSTed to `/auth`: exactly the
`tokenRequest` object `{email, password}` built in the constructor
(client.ts lines 48-51), in that key order.  The `URLSearchParams`
percent-encoding of the serialized body is an external library detail;
the event below records the key/value pairs it serializes. -/
def authParams (c : Config) : List (String × String) :=
  [("email", c.email), ("password", c.password)]

/-- The errors the client can raise, mirroring the three classes used by
`client.ts`: `IntegrationProviderAuthenticationError`,
`IntegrationProviderAPIError`, and the plain `Error` of `buildEndpoint`.
The SDK constructors take `{endpoint, status, statusText, cause?}`;
`status`/`statusText` are `Option`s because `authenticate` copies
`err.status`/`err.statusText`, which may be `undefined`, and `cause` is
an `Option` because it is an optional argument. The cause the code
builds is `new Error(data)`, so it is recorded as the wrapped response
body of type `β`. -/
inductive ApiError (β : Type) where
  | authentication (endpoint : String) (status : Option Nat)
      (statusText : Option String) (cause : Option β) : ApiError β
  | provider (endpoint : String) (status : Option Nat)
      (statusText : Option String) (cause : Option β) : ApiError β
  | generic (message : String) : ApiError β
deriving DecidableEq, Repr

/-- An outbound network call: the POST of the credentials to `/auth`, or
a GET with an `Authorization: Bearer <token>` header (a `none` token
models `this.token` being `undefined`, rendered `Bearer undefined`). -/
inductive NetEvent where
  | postAuth (url : String) (params : List (String × String)) : NetEvent
  | get (endpoint : String) (bearerToken : Option String) : NetEvent
deriving DecidableEq, Repr

/-- The parsed body of a successful `/auth` POST: `response.data`.  Its
`token` field may be absent (`undefined`), hence the `Option`. -/
structure AuthSuccess where
  token : Option String
deriving DecidableEq, Repr

/-- What the network does with the `/auth` POST of one `authenticate()`
call: either the promise resolves with a parsed body, or it rejects (any
transport failure or non-2xx response under axios's default
`validateStatus`); the caught error exposes optional `status` and
`statusText` fields, which is all `authenticate` reads from it. -/
inductive AuthOutcome where
  | success (body : AuthSuccess) : AuthOutcome
  | failure (status : Option Nat) (statusText : Option String) : AuthOutcome
deriving DecidableEq, Repr

/-- The response axios hands back for the GET in `fetch` (with
`validateStatus: () => true` every status resolves the promise):
the destructured `{ status, statusText, data }`. -/
structure GetResponse (β : Type) where
  status : Nat
  statusText : String
  data : β
deriving DecidableEq, Repr

/-- The slice of the network relevant to one `fetch` call: the outcome
of its fresh `/auth` POST and the response to its GET. -/
structure FetchWorld (β : Type) where
  auth : AuthOutcome
  get : GetResponse β
deriving DecidableEq, Repr

/-- `authenticate()` (client.ts lines 124-138): POSTs the credentials as
URL-encoded form data to `/auth`; on success returns
`response.data.token` (possibly `undefined`); on any failure throws an
`IntegrationProviderAuthenticationError` built from the `/auth`
endpoint, `err.status` and `err.statusText` — and no `cause`, since the
code passes none. Returns the result together with the trace of network
calls made. -/
def authenticate {β : Type} (c : Config) (a : AuthOutcome) :
    Except (ApiError β) (Option String) × List NetEvent :=
  let tr := [NetEvent.postAuth authUrl (authParams c)]
  match a with
  | .success body => (.ok body.token, tr)
  | .failure status statusText =>
      (.error (.authentication authUrl status statusText none), tr)

/-- `fetch(endpoint)` (client.ts lines 146-173): first awaits a fresh
`authenticate()` (storing the token in `this.token`), then GETs the
endpoint with `Authorization: Bearer <token>` and `validateStatus: () =>
true`, and classifies the status by hand: 200 returns the parsed body;
401/403 throw `IntegrationProviderAuthenticationError`; any other status
throws `IntegrationProviderAPIError`; both carry the endpoint, status,
statusText and `cause: new Error(data)`. -/
def fetch {β : Type} (c : Config) (w : FetchWorld β) (endpoint : String) :
    Except (ApiError β) β × List NetEvent :=
  match authenticate (β := β) c w.auth with
  | (.error e, tr) => (.error e, tr)
  | (.ok token, tr) =>
    let r := w.get
    let tr2 := tr ++ [NetEvent.get endpoint token]
    if r.status = 200 then
      (.ok r.data, tr2)
    else if r.status = 401 ∨ r.status = 403 then
      (.error (.authentication endpoint (some r.status) (some r.statusText)
        (some r.data)), tr2)
    else
      (.error (.provider endpoint (some r.status) (some r.statusText)
        (some r.data)), tr2)

/-- `verifyAuthentication()` (client.ts lines 56-60): fetches `/corps`
and discards the result. -/
def verifyAuthentication {β : Type} (c : Config) (w : FetchWorld β) :
    Except (ApiError β) Unit × List NetEvent :=
  match fetch c w corpsEndpoint with
  | (.ok _, tr) => (.ok (), tr)
  | (.error e, tr) => (.error e, tr)

/-- The shape `SigSciResponseFormat` of the body `fetch` returns for the
iterated endpoints: the iterators destructure `const { data } = await
this.fetch(endpoint)` and loop over `data`. -/
structure SigSciResponseFormat (α : Type) where
  data : List α
deriving DecidableEq, Repr

/-- `buildEndpoint(corp, path?)` (client.ts lines 112-122): throws a
plain `Error` when `corp` is falsy (for a string argument: when it is
empty), else appends `/corps/<corp>` and, when `path` is truthy
(present and non-empty), the path. -/
def buildEndpoint {β : Type} (corp : String) (path : Option String) :
    Except (ApiError β) String :=
  if corp = "" then
    .error (.generic
      ("Parameter \x27corp\x27 is required, but received " ++ corp))
  else
    .ok (match path with
      | some p => if p = "" then BASE_URI ++ "/corps/" ++ corp
                  else BASE_URI ++ "/corps/" ++ corp ++ p
      | none => BASE_URI ++ "/corps/" ++ corp)

/-- `iterateCorps(iteratee)` (client.ts lines 68-78): one fetch of
`/corps`, then `for (const corp of data) await iteratee(corp)`.  The
sequential awaited loop is embedded as a state-passing left fold of the
caller-supplied callback `f` over the collection, starting from `s`. -/
def iterateCorps {α σ : Type} (c : Config)
    (w : FetchWorld (SigSciResponseFormat α)) (f : σ → α → σ) (s : σ) :
    Except (ApiError (SigSciResponseFormat α)) σ × List NetEvent :=
  match fetch c w corpsEndpoint with
  | (.error e, tr) => (.error e, tr)
  | (.ok body, tr) => (.ok (body.data.foldl f s), tr)

/-- `iterateUsers(corpName, iteratee)` (client.ts lines 86-97): builds
`/corps/<corp>/users` (throwing before any network call when the corp
is empty), then one fetch and one awaited callback per element. -/
def iterateUsers {α σ : Type} (c : Config) (corpName : String)
    (w : FetchWorld (SigSciResponseFormat α)) (f : σ → α → σ) (s : σ) :
    Except (ApiError (SigSciResponseFormat α)) σ × List NetEvent :=
  match buildEndpoint corpName (some "/users") with
  | .error e => (.error e, [])
  | .ok endpoint =>
    match fetch c w endpoint with
    | (.error e, tr) => (.error e, tr)
    | (.ok body, tr) => (.ok (body.data.foldl f s), tr)

/-- `iterateCloudWAFInstances(corpName, iteratee)` (client.ts lines
99-110): builds `/corps/<corp>/cloudwafInstances` (throwing before any
network call when the corp is empty), then one fetch and one awaited
callback per element. -/
def iterateCloudWAFInstances {α σ : Type} (c : Config) (corpName : String)
    (w : FetchWorld (SigSciResponseFormat α)) (f : σ → α → σ) (s : σ) :
    Except (ApiError (SigSciResponseFormat α)) σ × List NetEvent :=
  match buildEndpoint corpName (some "/cloudwafInstances") with
  | .error e => (.error e, [])
  | .ok endpoint =>
    match fetch c w endpoint with
    | (.error e, tr) => (.error e, tr)
    | (.ok body, tr) => (.ok (body.data.foldl f s), tr)

/-! ## The retry layer

The client constructor (client.ts lines 38-47) installs `axios-retry`
on the global axios instance with `retries: 5` and the delay callback
below.  The configuration values are embedded from the source; the
retry loop itself lives in the external `axios-retry` package, so it is
modelled from the spec. -/

/-- `retries: 5` from the `axiosRetry` configuration (client.ts line 39). -/
def retries : Nat := 5

/-- The `retryDelay` callback (client.ts lines 40-46): `retryCount *
1000` when `error.response?.status === 429`, else `0`.  The optional
chaining is the `Option Nat` argument (`none` when there is no
response). -/
def retryDelay (retryCount : Nat) (responseStatus : Option Nat) : Nat :=
  if responseStatus = some 429 then retryCount * 1000 else 0

/-- The outcome the network gives one attempt of a retried request:
success with a value, or a failure whose response status (if any) the
delay callback inspects. -/
inductive AttemptOutcome (β : Type) where
  | ok (v : β) : AttemptOutcome β
  | fail (status : Option Nat) : AttemptOutcome β
deriving DecidableEq, Repr

/-- Modelled from the spec: the retry loop of the underlying HTTP layer
(the external `axios-retry` package, not part of this repository).  Per
the spec, a failed attempt is retried up to the configured number of
retries, waiting `retryDelay (n+1) status` before the (n+1)-st retry;
the first success ends the loop and is the only result the caller
observes.  Returns the final result (`none` when every attempt failed
or the oracle ran dry) and the list of delays slept. -/
def runWithRetry {β : Type} (delayFn : Nat → Option Nat → Nat) :
    Nat → Nat → List (AttemptOutcome β) → Option β × List Nat
  | _, _, [] => (none, [])
  | retriesLeft, retryCount, a :: rest =>
    match a with
    | .ok v => (some v, [])
    | .fail status =>
      match retriesLeft with
      | 0 => (none, [])
      | rl + 1 =>
        let d := delayFn (retryCount + 1) status
        let p := runWithRetry delayFn rl (retryCount + 1) rest
        (p.1, d :: p.2)

/-! ## The cloud-WAF converter

Embedding of `getCloudWAFKey`, `createCloudWAFEntity` and
`createOrganizationUserRelationship` from the cloud-WAF converter
module. -/

/-- One element of a cloud-WAF record's `workspaceConfigs` array; the
converter only reads its `siteName`. -/
structure WorkspaceConfig where
  siteName : String
deriving DecidableEq, Repr

/-- The `deployment` object of a cloud-WAF record, with the four fields
the converter reads.  `egressIps` is kept opaque as its raw rendering. -/
structure Deployment where
  status : String
  message : String
  egressIps : String
  dnsEntry : String
deriving DecidableEq, Repr

/-- A `SignalSciencesCloudWAF` vendor record, with the fields the
converter reads.  `workspaceConfigs` is an array that may be empty, and
`deployment` is an `Option` so that a record where it is absent
(`undefined` at runtime) can be expressed. -/
structure SignalSciencesCloudWAF where
  id : String
  name : String
  description : String
  region : String
  tlsMinVersion : String
  workspaceConfigs : List WorkspaceConfig
  deployment : Option Deployment
  useUploadedCertificates : Bool
  createdBy : String
  created : String
  updatedBy : String
deriving DecidableEq, Repr

/-- `_type` of the cloud-WAF entity. The constants module is not under
src; the value is pinned by the step test's schema
(`_type: { const: 'sigsci_cloudwaf' }`). -/
def cloudWAFEntityType : String := "sigsci_cloudwaf"

/-- `_class` of the cloud-WAF entity, pinned by the step test's schema
(`_class: ['Firewall']`). -/
def cloudWAFEntityClass : List String := ["Firewall"]

/-- `parseTimePropertyValue` is an external SDK helper (excluded from
the spec as a collaborator); it is modelled as an opaque injective
re-tagging of the raw timestamp string. -/
def parseTimePropertyValue (s : String) : Option String := some s

/-- The normalized graph entity the converter assigns, with the
properties of the `assign` block. -/
structure Entity where
  entityType : String
  entityClass : List String
  key : String
  name : String
  displayName : String
  category : List String
  description : String
  region : String
  tlsMinVersion : String
  siteName : String
  deploymentStatus : String
  deploymentMessage : String
  deploymentEgressIps : String
  deploymentDnsEntry : String
  useUploadedCertificates : Bool
  createdBy : String
  created : Option String
  updatedBy : String
deriving DecidableEq, Repr

/-- `getCloudWAFKey(id)`: the template literal `sigsci_cloudwaf:${id}`. -/
def getCloudWAFKey (id : String) : String := "sigsci_cloudwaf:" ++ id

/-- `createCloudWAFEntity(cloudWAF)`: builds one entity from one vendor
record, assigning every property of the converter's `assign` block.
The source unconditionally reads `cloudWAF.workspaceConfigs[0].siteName`
and `cloudWAF.deployment.status/message/egressIps/dnsEntry`; when
`workspaceConfigs` is empty or `deployment` is absent that property
access throws a `TypeError`, modelled here as the `none` result. -/
def createCloudWAFEntity (cloudWAF : SignalSciencesCloudWAF) :
    Option Entity :=
  match cloudWAF.workspaceConfigs, cloudWAF.deployment with
  | wc :: _, some dep =>
    some {
      entityType := cloudWAFEntityType
      entityClass := cloudWAFEntityClass
      key := getCloudWAFKey cloudWAF.id
      name := cloudWAF.name
      displayName := cloudWAF.name
      category := ["application"]
      description := cloudWAF.description
      region := cloudWAF.region
      tlsMinVersion := cloudWAF.tlsMinVersion
      siteName := wc.siteName
      deploymentStatus := dep.status
      deploymentMessage := dep.message
      deploymentEgressIps := dep.egressIps
      deploymentDnsEntry := dep.dnsEntry
      useUploadedCertificates := cloudWAF.useUploadedCertificates
      createdBy := cloudWAF.createdBy
      created := parseTimePropertyValue cloudWAF.created
      updatedBy := cloudWAF.updatedBy }
  | _, _ => none

/-! ## Theorems -/

/-- C1: for every `fetch(endpoint)` call whose GET response status is
not 200 (the `/auth` round trip having succeeded, so that the GET is
reached), the thrown error is an `AuthenticationError` if and only if
the status is 401 or 403, and a `ProviderAPIError` for every other
non-200 status; in both cases the error carries the requested endpoint,
the original HTTP status, the status text, and a cause built from the
response body. -/
theorem fetch_error_classification {β : Type} (c : Config) (w : FetchWorld β)
    (e : String) (b : AuthSuccess) (hauth : w.auth = AuthOutcome.success b)
    (h200 : w.get.status ≠ 200) :
    ((w.get.status = 401 ∨ w.get.status = 403) ↔
      (fetch c w e).1 = Except.error (ApiError.authentication e
        (some w.get.status) (some w.get.statusText) (some w.get.data)))
    ∧ ((¬(w.get.status = 401 ∨ w.get.status = 403)) →
      (fetch c w e).1 = Except.error (ApiError.provider e
        (some w.get.status) (some w.get.statusText) (some w.get.data))) := by
  by_cases h : w.get.status = 401 ∨ w.get.status = 403
  · refine ⟨⟨fun _ => ?_, fun _ => h⟩, fun hc => absurd h hc⟩
    simp [fetch, authenticate, hauth, h200, h]
  · refine ⟨⟨fun hc => absurd hc h, fun heq => ?_⟩, fun _ => ?_⟩
    · exfalso
      simp [fetch, authenticate, hauth, h200, h] at heq
    · simp [fetch, authenticate, hauth, h200, h]

/-- Witness for C1: a concrete 401 response yields the authentication
error, and a concrete 500 response yields the provider error. -/
theorem fetch_error_classification_witness :
    (((401 : Nat) = 401 ∨ (401 : Nat) = 403) ↔
      (fetch (Config.mk "a@b.c" "pw")
        (FetchWorld.mk (AuthOutcome.success ⟨some "tok"⟩)
          (GetResponse.mk 401 "Unauthorized" "body")) "ep").1 =
        Except.error (ApiError.authentication "ep" (some 401)
          (some "Unauthorized") (some "body")))
    ∧ ((¬((500 : Nat) = 401 ∨ (500 : Nat) = 403)) →
      (fetch (Config.mk "a@b.c" "pw")
        (FetchWorld.mk (AuthOutcome.success ⟨some "tok"⟩)
          (GetResponse.mk 500 "Server Error" "body")) "ep").1 =
        Except.error (ApiError.provider "ep" (some 500)
          (some "Server Error") (some "body"))) :=
  ⟨(fetch_error_classification (Config.mk "a@b.c" "pw")
      (FetchWorld.mk (AuthOutcome.success ⟨some "tok"⟩)
        (GetResponse.mk 401 "Unauthorized" "body")) "ep" ⟨some "tok"⟩
      rfl (by decide)).1,
   (fetch_error_classification (Config.mk "a@b.c" "pw")
      (FetchWorld.mk (AuthOutcome.success ⟨some "tok"⟩)
        (GetResponse.mk 500 "Server Error" "body")) "ep" ⟨some "tok"⟩
      rfl (by decide)).2⟩

/-- C2: for every `fetch(endpoint)` call whose GET response status is
200 (the `/auth` round trip having succeeded), `fetch` returns the
parsed response body unchanged and throws no error. -/
theorem fetch_200_returns_body {β : Type} (c : Config) (w : FetchWorld β)
    (e : String) (b : AuthSuccess) (hauth : w.auth = AuthOutcome.success b)
    (h : w.get.status = 200) :
    (fetch c w e).1 = Except.ok w.get.data := by
  simp [fetch, authenticate, hauth, h]

/-- Witness for C2: a concrete 200 response returns its body. -/
theorem fetch_200_returns_body_witness :
    (fetch (Config.mk "a@b.c" "pw")
      (FetchWorld.mk (AuthOutcome.success ⟨some "tok"⟩)
        (GetResponse.mk 200 "OK" ([3, 7] : List Nat))) "ep").1 =
      Except.ok [3, 7] :=
  fetch_200_returns_body (Config.mk "a@b.c" "pw")
    (FetchWorld.mk (AuthOutcome.success ⟨some "tok"⟩)
      (GetResponse.mk 200 "OK" ([3, 7] : List Nat))) "ep" ⟨some "tok"⟩
    rfl rfl

/-- C3: every resource fetch is preceded by exactly one fresh
`authenticate()` round trip.  The trace of any `fetch` call is exactly
one `/auth` POST followed (when the POST succeeds) by one GET whose
bearer token is the token returned by that same call's `/auth` response
— the trace is a function of this call's world alone, so no token from
a prior request can be reused — and the traces of
`verifyAuthentication`, `iterateCorps`, `iterateUsers` and
`iterateCloudWAFInstances` are exactly the traces of their single
underlying `fetch`. -/
theorem fetch_fresh_authentication {β σ : Type} (c : Config)
    (w : FetchWorld β) (e : String) :
    (∀ b : AuthSuccess, w.auth = AuthOutcome.success b →
      (fetch c w e).2 =
        [NetEvent.postAuth authUrl (authParams c), NetEvent.get e b.token])
    ∧ (∀ status statusText, w.auth = AuthOutcome.failure status statusText →
      (fetch c w e).2 = [NetEvent.postAuth authUrl (authParams c)])
    ∧ (verifyAuthentication c w).2 = (fetch c w corpsEndpoint).2
    ∧ (∀ (w2 : FetchWorld (SigSciResponseFormat β)) (f : σ → β → σ) (s : σ),
      (iterateCorps c w2 f s).2 = (fetch c w2 corpsEndpoint).2)
    ∧ (∀ (w2 : FetchWorld (SigSciResponseFormat β)) (corpName : String)
        (f : σ → β → σ) (s : σ), corpName ≠ "" →
      (iterateUsers c corpName w2 f s).2 =
        (fetch c w2 (BASE_URI ++ "/corps/" ++ corpName ++ "/users")).2)
    ∧ (∀ (w2 : FetchWorld (SigSciResponseFormat β)) (corpName : String)
        (f : σ → β → σ) (s : σ), corpName ≠ "" →
      (iterateCloudWAFInstances c corpName w2 f s).2 =
        (fetch c w2
          (BASE_URI ++ "/corps/" ++ corpName ++ "/cloudwafInstances")).2) := by
  refine ⟨fun b hauth => ?_, fun status statusText hauth => ?_, ?_,
    fun w2 f s => ?_, fun w2 corpName f s hc => ?_,
    fun w2 corpName f s hc => ?_⟩
  · simp only [fetch, authenticate, hauth]
    split_ifs <;> rfl
  · simp [fetch, authenticate, hauth]
  · rcases hfe : fetch c w corpsEndpoint with ⟨r, tr⟩
    cases r <;> simp [verifyAuthentication, hfe]
  · rcases hfe : fetch c w2 corpsEndpoint with ⟨r, tr⟩
    cases r <;> simp [iterateCorps, hfe]
  · rcases hfe : fetch c w2 (BASE_URI ++ "/corps/" ++ corpName ++ "/users")
      with ⟨r, tr⟩
    cases r <;> simp [iterateUsers, buildEndpoint, hc, hfe]
  · rcases hfe : fetch c w2
      (BASE_URI ++ "/corps/" ++ corpName ++ "/cloudwafInstances") with ⟨r, tr⟩
    cases r <;> simp [iterateCloudWAFInstances, buildEndpoint, hc, hfe]

/-- Witness for C3: a concrete successful call traces exactly one
`/auth` POST followed by one GET bearing that call's token. -/
theorem fetch_fresh_authentication_witness :
    (fetch (Config.mk "a@b.c" "pw")
      (FetchWorld.mk (AuthOutcome.success ⟨some "tok"⟩)
        (GetResponse.mk 200 "OK" "body")) "ep").2 =
      [NetEvent.postAuth authUrl [("email", "a@b.c"), ("password", "pw")],
       NetEvent.get "ep" (some "tok")] :=
  (fetch_fresh_authentication (σ := Unit) (Config.mk "a@b.c" "pw")
    (FetchWorld.mk (AuthOutcome.success ⟨some "tok"⟩)
      (GetResponse.mk 200 "OK" "body")) "ep").1 ⟨some "tok"⟩ rfl

/-- C4 counterexample: on a concrete failed `/auth` POST (HTTP 500),
`authenticate()` throws an `AuthenticationError` whose `cause` field is
`none` — the code passes no `cause` to the error constructor — so the
claim that the thrown error wraps the underlying cause of the failure
is false at this input. -/
theorem authenticate_no_cause_counterexample :
    (authenticate (β := String) (Config.mk "a@b.c" "pw")
      (AuthOutcome.failure (some 500) (some "Server Error"))).1 =
    Except.error (ApiError.authentication authUrl (some 500)
      (some "Server Error") none) := rfl

/-- C4 (amended): `authenticate()` POSTs the configured email/password
as URL-encoded form data to `/auth` and, on success, returns the token
field of the response body; on any transport failure or non-2xx
response it throws an `AuthenticationError` that wraps the HTTP status
and status text of the failure, but no underlying cause. -/
theorem authenticate_contract {β : Type} (c : Config) :
    (∀ body : AuthSuccess,
      authenticate (β := β) c (AuthOutcome.success body) =
        (Except.ok body.token, [NetEvent.postAuth authUrl (authParams c)]))
    ∧ (∀ status statusText,
      authenticate (β := β) c (AuthOutcome.failure status statusText) =
        (Except.error (ApiError.authentication authUrl status statusText none),
         [NetEvent.postAuth authUrl (authParams c)])) :=
  ⟨fun _ => rfl, fun _ _ => rfl⟩

/-- C10: when the `/auth` POST succeeds, `authenticate()` returns
exactly the `token` field of the response body with no validation — in
particular, a body with no token field yields `undefined` (`none`) and
raises no error. -/
theorem authenticate_token_passthrough {β : Type} (c : Config)
    (body : AuthSuccess) :
    (authenticate (β := β) c (AuthOutcome.success body)).1 =
      Except.ok body.token
    ∧ (authenticate (β := β) c (AuthOutcome.success ⟨none⟩)).1 =
      Except.ok (none : Option String) :=
  ⟨rfl, rfl⟩

/-- C5: the retry layer installed by the client constructor performs up
to 5 retries; the delay is `retryCount * 1000` ms exactly when the
failed response's status is 429 and `0` ms otherwise; consequently a
request answered by a 429 failure and then a 200 success eventually
succeeds after a single 1000 ms backoff, and the caller observes only
the final successful result. -/
theorem retry_policy_429 {β : Type} :
    retries = 5
    ∧ (∀ k, retryDelay k (some 429) = k * 1000)
    ∧ (∀ k s, s ≠ some 429 → retryDelay k s = 0)
    ∧ (∀ v : β,
      runWithRetry retryDelay retries 0
        [AttemptOutcome.fail (some 429), AttemptOutcome.ok v] =
        (some v, [1000])) := by
  refine ⟨rfl, fun k => ?_, fun k s hs => ?_, fun v => ?_⟩
  · simp [retryDelay]
  · simp [retryDelay, hs]
  · rfl

/-- Witness for C5: a non-429 failure is retried with zero delay, and
the concrete 429-then-200 scenario returns the final result after one
1000 ms backoff. -/
theorem retry_policy_429_witness :
    retryDelay 3 (some 500) = 0
    ∧ runWithRetry retryDelay retries 0
        [AttemptOutcome.fail (some 429), AttemptOutcome.ok (7 : Nat)] =
        (some 7, [1000]) :=
  ⟨(retry_policy_429 (β := Nat)).2.2.1 3 (some 500) (by decide),
   (retry_policy_429 (β := Nat)).2.2.2 7⟩

/-- C6: `iterateUsers` and `iterateCloudWAFInstances` called with an
empty corp identifier throw the generic `Error` of `buildEndpoint` —
distinct from the authentication and provider error classes — with an
empty network trace: no call (in particular no `authenticate()` POST)
is made. -/
theorem iterate_empty_corp_generic_error {β σ : Type} (c : Config)
    (w : FetchWorld (SigSciResponseFormat β)) (f : σ → β → σ) (s : σ) :
    iterateUsers c "" w f s =
      (Except.error (ApiError.generic
        "Parameter \x27corp\x27 is required, but received "), [])
    ∧ iterateCloudWAFInstances c "" w f s =
      (Except.error (ApiError.generic
        "Parameter \x27corp\x27 is required, but received "), [])
    ∧ (∀ (endpoint : String) (status : Option Nat)
        (statusText : Option String)
        (cause : Option (SigSciResponseFormat β)),
      (iterateUsers c "" w f s).1 ≠
        Except.error (ApiError.authentication endpoint status statusText cause)
      ∧ (iterateUsers c "" w f s).1 ≠
        Except.error (ApiError.provider endpoint status statusText cause)) := by
  refine ⟨rfl, rfl, fun endpoint status statusText cause => ⟨?_, ?_⟩⟩ <;>
    simp [iterateUsers, buildEndpoint]

/-- The sequential awaited loop over a collection, run with the
callback that records each element, visits exactly the collection in
order. -/
theorem foldl_append_singleton {α : Type} (xs : List α) (acc : List α) :
    xs.foldl (fun l x => l ++ [x]) acc = acc ++ xs := by
  induction xs generalizing acc with
  | nil => simp
  | cons a t ih => simp [List.foldl_cons, ih]

/-- A successful `fetch` call in full: the body and the two-event
trace. -/
theorem fetch_ok_eq {β : Type} (c : Config) (w : FetchWorld β)
    (b : AuthSuccess) (hauth : w.auth = AuthOutcome.success b)
    (h200 : w.get.status = 200) (e : String) :
    fetch c w e = (Except.ok w.get.data,
      [NetEvent.postAuth authUrl (authParams c), NetEvent.get e b.token]) := by
  simp [fetch, authenticate, hauth, h200]

/-- C7: each of `iterateCorps`, `iterateUsers` and
`iterateCloudWAFInstances` performs exactly one fetch per invocation
(its trace is one `/auth` POST and one GET, with no further network
events) and processes the returned collection as a sequential fold of
the caller-supplied callback — so, run with the callback that records
its argument, the callback is invoked exactly once per element of the
collection, in order. -/
theorem iterators_single_fetch_sequential {β σ : Type} (c : Config)
    (w : FetchWorld (SigSciResponseFormat β)) (b : AuthSuccess)
    (corpName : String) (hauth : w.auth = AuthOutcome.success b)
    (h200 : w.get.status = 200) (hc : corpName ≠ "") :
    (∀ (f : σ → β → σ) (s : σ),
      iterateCorps c w f s =
        (Except.ok (w.get.data.data.foldl f s),
         [NetEvent.postAuth authUrl (authParams c),
          NetEvent.get corpsEndpoint b.token]))
    ∧ (iterateCorps c w (fun l x => l ++ [x]) ([] : List β)).1 =
        Except.ok w.get.data.data
    ∧ (∀ (f : σ → β → σ) (s : σ),
      iterateUsers c corpName w f s =
        (Except.ok (w.get.data.data.foldl f s),
         [NetEvent.postAuth authUrl (authParams c),
          NetEvent.get (BASE_URI ++ "/corps/" ++ corpName ++ "/users")
            b.token]))
    ∧ (iterateUsers c corpName w (fun l x => l ++ [x]) ([] : List β)).1 =
        Except.ok w.get.data.data
    ∧ (∀ (f : σ → β → σ) (s : σ),
      iterateCloudWAFInstances c corpName w f s =
        (Except.ok (w.get.data.data.foldl f s),
         [NetEvent.postAuth authUrl (authParams c),
          NetEvent.get
            (BASE_URI ++ "/corps/" ++ corpName ++ "/cloudwafInstances")
            b.token]))
    ∧ (iterateCloudWAFInstances c corpName w
        (fun l x => l ++ [x]) ([] : List β)).1 =
        Except.ok w.get.data.data := by
  refine ⟨fun f s => ?_, ?_, fun f s => ?_, ?_, fun f s => ?_, ?_⟩ <;>
    simp [iterateCorps, iterateUsers, iterateCloudWAFInstances,
      buildEndpoint, hc, fetch_ok_eq c w b hauth h200,
      foldl_append_singleton]

/-- Witness for C7: with a mocked collection `[1, 2, 3]`, the recording
callback observes exactly `[1, 2, 3]`. -/
theorem iterators_single_fetch_sequential_witness :
    (iterateCorps (Config.mk "a@b.c" "pw")
      (FetchWorld.mk (AuthOutcome.success ⟨some "tok"⟩)
        (GetResponse.mk 200 "OK" (SigSciResponseFormat.mk ([1, 2, 3] : List Nat))))
      (fun l x => l ++ [x]) ([] : List Nat)).1 = Except.ok [1, 2, 3] :=
  (iterators_single_fetch_sequential (σ := List Nat) (Config.mk "a@b.c" "pw")
    (FetchWorld.mk (AuthOutcome.success ⟨some "tok"⟩)
      (GetResponse.mk 200 "OK" (SigSciResponseFormat.mk ([1, 2, 3] : List Nat))))
    ⟨some "tok"⟩ "acme" rfl rfl (by decide)).2.1

/-- C8 counterexample: a concrete cloud-WAF record with an empty
`workspaceConfigs` array (and a present deployment) makes
`createCloudWAFEntity` fail — `workspaceConfigs[0].siteName` is an
access on a missing element — rather than produce an entity, so the
claim's quantification over every record is false at this input. -/
theorem createCloudWAFEntity_empty_configs_counterexample :
    createCloudWAFEntity
      (SignalSciencesCloudWAF.mk "waf-x" "name" "desc" "us-west-1" "1.2"
        [] (some (Deployment.mk "done" "ok" "ips" "dns")) true "me"
        "2020-01-01" "you") = none := rfl

/-- C8 (amended): for every cloud-WAF record whose `workspaceConfigs`
is non-empty and whose `deployment` is present, `createCloudWAFEntity`
deterministically produces one entity whose key is `sigsci_cloudwaf:`
followed by the record's id and whose `siteName` equals the `siteName`
of the first element of `workspaceConfigs`. -/
theorem createCloudWAFEntity_key_siteName (r : SignalSciencesCloudWAF)
    (wc : WorkspaceConfig) (rest : List WorkspaceConfig) (dep : Deployment)
    (hwc : r.workspaceConfigs = wc :: rest) (hdep : r.deployment = some dep) :
    ∃ ent, createCloudWAFEntity r = some ent
      ∧ ent.key = "sigsci_cloudwaf:" ++ r.id
      ∧ ent.siteName = wc.siteName := by
  simp only [createCloudWAFEntity, hwc, hdep]
  exact ⟨_, rfl, rfl, rfl⟩

/-- Witness for C8: the record of the spec's scenario, with
`workspaceConfigs: [{siteName: "s1"}]`, yields an entity with key
`sigsci_cloudwaf:waf-1` and `siteName` `"s1"`. -/
theorem createCloudWAFEntity_key_siteName_witness :
    ∃ ent, createCloudWAFEntity
      (SignalSciencesCloudWAF.mk "waf-1" "name" "desc" "us-east-1" "1.2"
        [WorkspaceConfig.mk "s1"]
        (some (Deployment.mk "done" "ok" "ips" "dns")) true "me"
        "2020-01-01" "you") = some ent
      ∧ ent.key = "sigsci_cloudwaf:" ++ "waf-1"
      ∧ ent.siteName = "s1" :=
  createCloudWAFEntity_key_siteName _ (WorkspaceConfig.mk "s1") []
    (Deployment.mk "done" "ok" "ips" "dns") rfl rfl

/-- C9: `createCloudWAFEntity` is partial at its public interface: a
record whose `workspaceConfigs` is empty or whose `deployment` is
absent makes evaluation fail instead of producing an entity, and
success requires `workspaceConfigs` to be non-empty and `deployment`
to be present. -/
theorem createCloudWAFEntity_requires_precondition
    (r : SignalSciencesCloudWAF) :
    ((r.workspaceConfigs = [] ∨ r.deployment = none) →
      createCloudWAFEntity r = none)
    ∧ (∀ ent, createCloudWAFEntity r = some ent →
      r.workspaceConfigs ≠ [] ∧ r.deployment ≠ none) := by
  rcases hw : r.workspaceConfigs with _ | ⟨wc, rest⟩ <;>
    rcases hd : r.deployment with _ | dep <;>
      simp [createCloudWAFEntity, hw, hd]

/-- Witness for C9: a concrete record with an absent deployment fails
to produce an entity. -/
theorem createCloudWAFEntity_requires_precondition_witness :
    createCloudWAFEntity
      (SignalSciencesCloudWAF.mk "waf-2" "name" "desc" "eu-west-1" "1.2"
        [WorkspaceConfig.mk "s2"] none false "me" "2021-01-01" "you") =
      none :=
  (createCloudWAFEntity_requires_precondition
    (SignalSciencesCloudWAF.mk "waf-2" "name" "desc" "eu-west-1" "1.2"
      [WorkspaceConfig.mk "s2"] none false "me" "2021-01-01" "you")).1
    (Or.inr rfl)

end SigSci

